import Mathlib

/-! Module docstring:
Verification of the bm-staff authentication core.

A shallow embedding of the authentication and session-token subsystem of the
bm-staff backend: entities (`BaseEntity`, `User`, `RefreshToken`), the password
service, the JWT service, and the three authentication use cases (login,
logout, refresh), followed by theorems settling the specified properties.

Modelling conventions:
* Timestamps (`time.Time`) are `Int` seconds; durations (`time.Duration`) are
  `Int` seconds.  `time.Now()` becomes an explicit `now : Int` argument.
* `uuid.UUID` values are `Nat`; fresh UUIDs (`uuid.New()`) become explicit
  arguments.
* A serialized JWT string is modelled by its parsed content `SignedToken`
  (header algorithm, claims, and the secret that produced the signature);
  the SHA-256 digest of the password service is an abstract
  `digest : String → String` argument.
* Repository collaborators become an explicit `AuthStore` value threaded
  through the use cases; a fallible repository call's outcome is an explicit
  `Option String` argument (`some msg` = the store returned error `msg`).
-/

namespace BmStaff

/-! Section: Base entity (internal/domain/entities/base.go) -/

/-- Go `BaseEntity`: common persistence fields.  `TenantID`, `CreatedBy` and the
GORM mechanics are irrelevant to the authentication core and omitted. -/
structure BaseEntity where
  id : Nat
  createdAt : Int
  updatedAt : Int
  updatedBy : Option Nat
  deletedAt : Option Int
  version : Int
  deriving Repr, DecidableEq

/-- Go `NewBaseEntity()`: fresh id, both timestamps `now`, version 1. -/
def NewBaseEntity (id : Nat) (now : Int) : BaseEntity :=
  { id := id
    createdAt := now
    updatedAt := now
    updatedBy := none
    deletedAt := none
    version := 1 }

/-- Go `BaseEntity.UpdateVersion`: bump `UpdatedAt`, optionally set `UpdatedBy`,
increment `Version`. -/
def BaseEntity.UpdateVersion (b : BaseEntity) (now : Int) (updatedBy : Option Nat) : BaseEntity :=
  { b with
    updatedAt := now
    updatedBy := match updatedBy with | some u => some u | none => b.updatedBy
    version := b.version + 1 }

/-- Go `BaseEntity.SoftDelete`: set `DeletedAt`, bump `UpdatedAt`, optionally set
`UpdatedBy`, increment `Version`. -/
def BaseEntity.SoftDelete (b : BaseEntity) (now : Int) (deletedBy : Option Nat) : BaseEntity :=
  { b with
    deletedAt := some now
    updatedAt := now
    updatedBy := match deletedBy with | some u => some u | none => b.updatedBy
    version := b.version + 1 }

/-- Go `BaseEntity.Touch`: bump `UpdatedAt`, optionally set `UpdatedBy`. -/
def BaseEntity.Touch (b : BaseEntity) (now : Int) (updatedBy : Option Nat) : BaseEntity :=
  { b with
    updatedAt := now
    updatedBy := match updatedBy with | some u => some u | none => b.updatedBy }

/-! Section: User entity (internal/domain/entities/user.go) -/

/-- Go `UserStatus`. -/
inductive UserStatus where
  | active
  | inactive
  | pending
  | blocked
  deriving Repr, DecidableEq

/-- Go `User`: the authentication-relevant subset.  Profile, organization and
notification fields never read or written by the authentication core are
omitted. -/
structure User where
  base : BaseEntity
  username : String
  email : String
  firstName : String
  lastName : String
  status : UserStatus
  passwordHash : String
  salt : String
  lastLoginAt : Option Int
  loginAttempts : Int
  lockedUntil : Option Int
  roleID : Option Nat
  deriving Repr, DecidableEq

/-- Go `User.IsActive`: `Status == UserStatusActive`. -/
def User.IsActive (u : User) : Bool :=
  u.status == UserStatus.active

/-- Go `User.RecordLogin`: `LastLoginAt = now`, `LoginAttempts = 0`,
`LockedUntil = nil`, then `UpdateVersion`. -/
def User.RecordLogin (u : User) (now : Int) (updatedBy : Option Nat) : User :=
  { u with
    lastLoginAt := some now
    loginAttempts := 0
    lockedUntil := none
    base := u.base.UpdateVersion now updatedBy }

/-- Go `User.RecordFailedLogin`: increment `LoginAttempts`; if the result is ≥ 5,
lock the account for 30 minutes; then `UpdateVersion`. -/
def User.RecordFailedLogin (u : User) (now : Int) (updatedBy : Option Nat) : User :=
  let attempts := u.loginAttempts + 1
  let lockedUntil := if attempts ≥ 5 then some (now + 30 * 60) else u.lockedUntil
  { u with
    loginAttempts := attempts
    lockedUntil := lockedUntil
    base := u.base.UpdateVersion now updatedBy }

/-- Go `User.IsLocked`: `LockedUntil != nil && time.Now().Before(*LockedUntil)`. -/
def User.IsLocked (u : User) (now : Int) : Bool :=
  match u.lockedUntil with
  | none => false
  | some t => decide (now < t)

/-- Go `User.UnlockAccount`: reset `LoginAttempts`, clear `LockedUntil`,
`UpdateVersion`. -/
def User.UnlockAccount (u : User) (now : Int) (updatedBy : Option Nat) : User :=
  { u with
    loginAttempts := 0
    lockedUntil := none
    base := u.base.UpdateVersion now updatedBy }

/-! Section: RefreshToken entity (internal/domain/entities, refresh token file) -/

/-- Go `SigningAlg`: the `alg` header of a JWT.  The Go code accepts only the
`jwt.SigningMethodHMAC` family (HS256/HS384/HS512). -/
inductive SigningAlg where
  | hs256
  | hs384
  | hs512
  | nonHmac (name : String)
  deriving Repr, DecidableEq

/-- Whether the algorithm belongs to the `jwt.SigningMethodHMAC` family. -/
def SigningAlg.isHmac : SigningAlg → Bool
  | .hs256 => true
  | .hs384 => true
  | .hs512 => true
  | .nonHmac _ => false

/-- Go `JWTClaims` (internal/domain/services/jwt_service.go): custom fields plus
the registered claims. -/
structure JWTClaims where
  userID : Nat
  username : String
  email : String
  roleID : Option Nat
  issuer : String
  subject : String
  audience : List String
  expiresAt : Int
  notBefore : Int
  issuedAt : Int
  jti : String
  deriving Repr, DecidableEq

/-- Model of a serialized, signed JWT string: the header algorithm, the
claims and the secret whose HMAC produced the signature. -/
structure SignedToken where
  alg : SigningAlg
  claims : JWTClaims
  signedWith : String
  deriving Repr, DecidableEq

/-- Go `RefreshToken` entity: a persisted refresh-token row. -/
structure RefreshToken where
  base : BaseEntity
  userID : Nat
  token : SignedToken
  expiresAt : Int
  isRevoked : Bool
  revokedAt : Option Int
  ipAddress : String
  userAgent : String
  deriving Repr, DecidableEq

/-- Go `NewRefreshToken`: fresh row, not revoked. -/
def NewRefreshToken (id : Nat) (now : Int) (userID : Nat) (token : SignedToken)
    (expiresAt : Int) (ipAddress userAgent : String) : RefreshToken :=
  { base := NewBaseEntity id now
    userID := userID
    token := token
    expiresAt := expiresAt
    isRevoked := false
    revokedAt := none
    ipAddress := ipAddress
    userAgent := userAgent }

/-- Go `RefreshToken.Revoke`: `IsRevoked = true`, `RevokedAt = now`,
`UpdateVersion`. -/
def RefreshToken.Revoke (rt : RefreshToken) (now : Int) (revokedBy : Option Nat) : RefreshToken :=
  { rt with
    isRevoked := true
    revokedAt := some now
    base := rt.base.UpdateVersion now revokedBy }

/-- Go `RefreshToken.IsExpired`: `time.Now().After(ExpiresAt)`, i.e.
`now > expiresAt` (strict). -/
def RefreshToken.IsExpired (rt : RefreshToken) (now : Int) : Bool :=
  decide (rt.expiresAt < now)

/-- Go `RefreshToken.IsValid`: `!IsRevoked && !IsExpired()`. -/
def RefreshToken.IsValid (rt : RefreshToken) (now : Int) : Bool :=
  !rt.isRevoked && !rt.IsExpired now

/-! Section: Password service (internal/domain/services, password service file) -/

/-- Hex digit table of `encoding/hex`. -/
def hexDigit (n : Nat) : Char :=
  if n < 10 then Char.ofNat (48 + n) else Char.ofNat (97 + (n - 10))

/-- Go `hex.EncodeToString` over a byte list. -/
def hexEncode (bs : List Nat) : String :=
  String.mk (bs.foldr (fun b acc => hexDigit (b / 16 % 16) :: hexDigit (b % 16) :: acc) [])

/-- Go `PasswordService.HashPassword`: salt = hex of 16 random bytes (the random
bytes are an explicit argument), hash = digest of `password ++ salt`.  The
SHA-256-then-hex digest is the abstract `digest` argument. -/
def HashPassword (digest : String → String) (password : String) (saltBytes : List Nat) :
    String × String :=
  let salt := hexEncode saltBytes
  (digest (password ++ salt), salt)

/-- Go `PasswordService.VerifyPassword`: recompute the digest with the stored
salt and compare to the stored hash. -/
def VerifyPassword (digest : String → String) (password hash salt : String) : Bool :=
  digest (password ++ salt) == hash

/-! Section: JWT service (internal/domain/services/jwt_service.go) -/

/-- Go `JWTService`: symmetric secret plus the two configured lifetimes
(seconds). -/
structure JWTService where
  secretKey : String
  accessExpiry : Int
  refreshExpiry : Int
  deriving Repr, DecidableEq

/-- Go `TokenPair`. -/
structure TokenPair where
  accessToken : SignedToken
  refreshToken : SignedToken
  expiresIn : Int
  tokenType : String
  deriving Repr, DecidableEq

/-- Go `JWTService.generateAccessToken`: full identity claims, audience
`"bm-staff-api"`, expiry `now + accessExpiry`; signed HS256 with the
service secret.  The fresh `uuid.New()` token id is the `jti` argument. -/
def JWTService.generateAccessToken (js : JWTService) (userID : Nat)
    (username email : String) (roleID : Option Nat) (now : Int) (jti : String) :
    SignedToken × Int :=
  let expiresAt := now + js.accessExpiry
  let claims : JWTClaims :=
    { userID := userID
      username := username
      email := email
      roleID := roleID
      issuer := "bm-staff"
      subject := toString userID
      audience := ["bm-staff-api"]
      expiresAt := expiresAt
      notBefore := now
      issuedAt := now
      jti := jti }
  ({ alg := .hs256, claims := claims, signedWith := js.secretKey }, expiresAt)

/-- Go `JWTService.generateRefreshToken`: carries only `userID` (the other
custom claims stay at their Go zero values), audience `"bm-staff-refresh"`,
expiry `now + refreshExpiry`; signed HS256 with the service secret. -/
def JWTService.generateRefreshToken (js : JWTService) (userID : Nat)
    (now : Int) (jti : String) : SignedToken × Int :=
  let expiresAt := now + js.refreshExpiry
  let claims : JWTClaims :=
    { userID := userID
      username := ""
      email := ""
      roleID := none
      issuer := "bm-staff"
      subject := toString userID
      audience := ["bm-staff-refresh"]
      expiresAt := expiresAt
      notBefore := now
      issuedAt := now
      jti := jti }
  ({ alg := .hs256, claims := claims, signedWith := js.secretKey }, expiresAt)

/-- Go `JWTService.GenerateTokenPair`: access and refresh token;
`ExpiresIn = accessExpiry` seconds, `TokenType = "Bearer"`.  (Signing with an
HMAC cannot fail, so the Go error paths are unreachable in the model.) -/
def JWTService.GenerateTokenPair (js : JWTService) (userID : Nat)
    (username email : String) (roleID : Option Nat) (now : Int)
    (accessJti refreshJti : String) : TokenPair :=
  { accessToken := (js.generateAccessToken userID username email roleID now accessJti).1
    refreshToken := (js.generateRefreshToken userID now refreshJti).1
    expiresIn := js.accessExpiry
    tokenType := "Bearer" }

/-- Go `JWTService.ValidateToken`: the keyfunc rejects any non-HMAC `alg`
header; `jwt.ParseWithClaims` then checks the signature against the service
secret and the temporal claims (`exp`: valid iff `now < exp`; `nbf`: valid
iff `nbf ≤ now`). -/
def JWTService.ValidateToken (js : JWTService) (now : Int) (tok : SignedToken) :
    Except String JWTClaims :=
  if !tok.alg.isHmac then
    .error "failed to parse token: unexpected signing method"
  else if tok.signedWith != js.secretKey then
    .error "failed to parse token: signature is invalid"
  else if !(decide (now < tok.claims.expiresAt)) then
    .error "failed to parse token: token is expired"
  else if decide (now < tok.claims.notBefore) then
    .error "failed to parse token: token is not valid yet"
  else
    .ok tok.claims

/-- Go `JWTService.RefreshToken`: validate, then require the first audience
entry to be `"bm-staff-refresh"` (the Go test is
`len(Audience) == 0 || Audience[0] != "bm-staff-refresh"`, which is exactly
`head? ≠ some "bm-staff-refresh"`), then generate a brand-new pair. -/
def JWTService.RefreshToken (js : JWTService) (now : Int) (tok : SignedToken)
    (username email : String) (roleID : Option Nat)
    (accessJti refreshJti : String) : Except String TokenPair :=
  match js.ValidateToken now tok with
  | .error e => .error ("invalid refresh token: " ++ e)
  | .ok claims =>
    if claims.audience.head? != some "bm-staff-refresh" then
      .error "invalid token type for refresh"
    else
      .ok (js.GenerateTokenPair claims.userID username email roleID now accessJti refreshJti)

/-! Section: Errors (pkg/errors) and the repository store -/

/-- The `details` payload of a validation error: `nil`, or the
`{"locked_until": ...}` map built by the login flow. -/
inductive ErrorDetails where
  | noDetails
  | lockedUntil (t : Option Int)
  deriving Repr, DecidableEq

/-- Application error: code, message, optional details, and the wrapped
cause when built by `WrapError`. -/
structure AppError where
  code : String
  message : String
  details : ErrorDetails
  cause : Option String
  deriving Repr, DecidableEq

/-- Go `errors.NewValidationError`. -/
def NewValidationError (code message : String) (details : ErrorDetails) : AppError :=
  { code := code, message := message, details := details, cause := none }

/-- Go `errors.WrapError`. -/
def WrapError (cause code message : String) : AppError :=
  { code := code, message := message, details := .noDetails, cause := some cause }

/-- The backing store seen through the `UserRepository` and
`RefreshTokenRepository` contracts. -/
structure AuthStore where
  users : List User
  refreshTokens : List RefreshToken
  deriving Repr, DecidableEq

/-- Go `UserRepository.GetByUsername`. -/
def AuthStore.getByUsername (s : AuthStore) (username : String) : Option User :=
  s.users.find? (fun u => u.username == username)

/-- Go `UserRepository.GetByID`. -/
def AuthStore.getByID (s : AuthStore) (id : Nat) : Option User :=
  s.users.find? (fun u => u.base.id == id)

/-- Go `RefreshTokenRepository.GetByToken`. -/
def AuthStore.getByToken (s : AuthStore) (token : SignedToken) : Option RefreshToken :=
  s.refreshTokens.find? (fun rt => rt.token == token)

/-- Go `UserRepository.Update`: replace the row with the same id. -/
def AuthStore.updateUser (s : AuthStore) (u : User) : AuthStore :=
  { s with users := s.users.map (fun v => if v.base.id == u.base.id then u else v) }

/-- Go `RefreshTokenRepository.Update`: replace the row with the same id. -/
def AuthStore.updateRefreshToken (s : AuthStore) (rt : RefreshToken) : AuthStore :=
  { s with refreshTokens := s.refreshTokens.map (fun v => if v.base.id == rt.base.id then rt else v) }

/-- Go `RefreshTokenRepository.Create`: append the new row. -/
def AuthStore.createRefreshToken (s : AuthStore) (rt : RefreshToken) : AuthStore :=
  { s with refreshTokens := s.refreshTokens ++ [rt] }

/-! Section: Login use case (internal/usecases/auth/login.go) -/

/-- Go `LoginRequest`. -/
structure LoginRequest where
  username : String
  password : String
  deriving Repr, DecidableEq

/-- Go `LoginResponse`. -/
structure LoginResponse where
  user : User
  tokens : TokenPair
  expiresIn : Int
  deriving Repr, DecidableEq

/-- Nondeterministic inputs of one login invocation: the fresh UUIDs drawn by
the flow and the outcomes of the fallible repository calls (`some msg` = the
call returned error `msg`). -/
structure LoginEnv where
  accessJti : String
  refreshJti : String
  rowID : Nat
  updateAfterFailedLoginErr : Option String
  createRefreshTokenErr : Option String
  updateAfterLoginErr : Option String
  deriving Repr, DecidableEq

/-- Go `LoginUseCase.Execute`: returns the flow result together with the store
as left behind by the invocation. -/
def LoginUseCase.Execute (digest : String → String) (js : JWTService)
    (store : AuthStore) (req : LoginRequest) (ipAddress userAgent : String)
    (now : Int) (env : LoginEnv) : Except AppError LoginResponse × AuthStore :=
  match store.getByUsername req.username with
  | none =>
    (.error (NewValidationError "AUTH_001" "Invalid credentials" .noDetails), store)
  | some user =>
    if user.IsLocked now then
      (.error (NewValidationError "AUTH_002"
        "Account is locked due to too many failed login attempts"
        (.lockedUntil user.lockedUntil)), store)
    else if !user.IsActive then
      (.error (NewValidationError "AUTH_003" "Account is not active" .noDetails), store)
    else if !(VerifyPassword digest req.password user.passwordHash user.salt) then
      -- record the failed attempt; a persistence error is logged, not surfaced
      let user := user.RecordFailedLogin now none
      let store := match env.updateAfterFailedLoginErr with
        | some _ => store
        | none => store.updateUser user
      (.error (NewValidationError "AUTH_001" "Invalid credentials" .noDetails), store)
    else
      let tokens := js.GenerateTokenPair user.base.id user.username user.email user.roleID
        now env.accessJti env.refreshJti
      -- persisted row expiry is the fixed 7 days, not the configured refresh lifetime
      let refreshToken := NewRefreshToken env.rowID now user.base.id tokens.refreshToken
        (now + 7 * 24 * 60 * 60) ipAddress userAgent
      match env.createRefreshTokenErr with
      | some e =>
        (.error (WrapError e "SYS_001" "Failed to save refresh token"), store)
      | none =>
        let store := store.createRefreshToken refreshToken
        let user := user.RecordLogin now none
        let store := match env.updateAfterLoginErr with
          | some _ => store
          | none => store.updateUser user
        (.ok { user := user, tokens := tokens, expiresIn := tokens.expiresIn }, store)

/-! Section: Logout use case (internal/usecases/auth/logout.go) -/

/-- Go `LogoutResponse`. -/
structure LogoutResponse where
  message : String
  deriving Repr, DecidableEq

/-- Go `LogoutUseCase.Execute`.  `updateErr` is the outcome of the
`RefreshTokenRepository.Update` call (`some msg` = the store failed). -/
def LogoutUseCase.Execute (js : JWTService) (store : AuthStore)
    (reqToken : SignedToken) (now : Int) (updateErr : Option String) :
    Except AppError LogoutResponse × AuthStore :=
  match js.ValidateToken now reqToken with
  | .error _ =>
    (.error (NewValidationError "AUTH_001" "Invalid refresh token" .noDetails), store)
  | .ok _ =>
    match store.getByToken reqToken with
    | none =>
      (.error (NewValidationError "AUTH_001" "Invalid refresh token" .noDetails), store)
    | some refreshToken =>
      if !(refreshToken.IsValid now) then
        (.error (NewValidationError "AUTH_001" "Invalid refresh token" .noDetails), store)
      else
        let refreshToken := refreshToken.Revoke now none
        match updateErr with
        | some e =>
          (.error (WrapError e "SYS_001" "Failed to revoke refresh token"), store)
        | none =>
          (.ok { message := "Successfully logged out" }, store.updateRefreshToken refreshToken)

/-! Section: Refresh-token use case (internal/usecases/auth/refresh_token.go) -/

/-- Go `RefreshTokenResponse`. -/
structure RefreshTokenResponse where
  tokens : TokenPair
  expiresIn : Int
  deriving Repr, DecidableEq

/-- Nondeterministic inputs of one refresh invocation. -/
structure RefreshEnv where
  accessJti : String
  refreshJti : String
  rowID : Nat
  revokeUpdateErr : Option String
  createErr : Option String
  deriving Repr, DecidableEq

/-- Go `RefreshTokenUseCase.Execute`. -/
def RefreshTokenUseCase.Execute (js : JWTService) (store : AuthStore)
    (reqToken : SignedToken) (ipAddress userAgent : String) (now : Int)
    (env : RefreshEnv) : Except AppError RefreshTokenResponse × AuthStore :=
  match js.ValidateToken now reqToken with
  | .error _ =>
    (.error (NewValidationError "AUTH_001" "Invalid refresh token" .noDetails), store)
  | .ok claims =>
    match store.getByToken reqToken with
    | none =>
      (.error (NewValidationError "AUTH_001" "Invalid refresh token" .noDetails), store)
    | some refreshToken =>
      if !(refreshToken.IsValid now) then
        (.error (NewValidationError "AUTH_001" "Invalid refresh token" .noDetails), store)
      else
        match store.getByID claims.userID with
        | none =>
          (.error (NewValidationError "AUTH_001" "User not found" .noDetails), store)
        | some user =>
          if !user.IsActive then
            (.error (NewValidationError "AUTH_003" "Account is not active" .noDetails), store)
          else
            match js.RefreshToken now reqToken user.username user.email user.roleID
              env.accessJti env.refreshJti with
            | .error e =>
              (.error (WrapError e "SYS_001" "Failed to refresh token"), store)
            | .ok tokens =>
              -- revoke the old row; a persistence error is logged, not surfaced
              let store := match env.revokeUpdateErr with
                | some _ => store
                | none => store.updateRefreshToken (refreshToken.Revoke now none)
              -- new row keeps the old row's expiry; a create error is also swallowed
              let newRefreshToken := NewRefreshToken env.rowID now user.base.id
                tokens.refreshToken refreshToken.expiresAt ipAddress userAgent
              let store := match env.createErr with
                | some _ => store
                | none => store.createRefreshToken newRefreshToken
              (.ok { tokens := tokens, expiresIn := tokens.expiresIn }, store)

/-! Section: Mutating operations on a RefreshToken record

The core exposes exactly these state-changing methods on a `RefreshToken`
value: its own `Revoke`, and the inherited `BaseEntity` mutators
(`SoftDelete`, `UpdateVersion`, `Touch`).  `IsExpired`/`IsValid` are pure. -/

/-- One mutating call on a `RefreshToken` record. -/
inductive RefreshTokenOp where
  | revoke (now : Int) (revokedBy : Option Nat)
  | softDelete (now : Int) (deletedBy : Option Nat)
  | updateVersion (now : Int) (updatedBy : Option Nat)
  | touch (now : Int) (updatedBy : Option Nat)
  deriving Repr, DecidableEq

/-- Apply one mutating call. -/
def RefreshTokenOp.apply : RefreshTokenOp → RefreshToken → RefreshToken
  | .revoke now b, rt => rt.Revoke now b
  | .softDelete now b, rt => { rt with base := rt.base.SoftDelete now b }
  | .updateVersion now b, rt => { rt with base := rt.base.UpdateVersion now b }
  | .touch now b, rt => { rt with base := rt.base.Touch now b }

/-- Apply a sequence of mutating calls, oldest first. -/
def applyRefreshTokenOps (ops : List RefreshTokenOp) (rt : RefreshToken) : RefreshToken :=
  ops.foldl (fun r op => op.apply r) rt

/-! Section: Concrete sample values (used by the witness theorems) -/

/-- Concrete stand-in for the SHA-256-then-hex digest. -/
def exDigest : String → String :=
  fun s => String.append "sha256:" s

/-- Concrete token-service configuration: 15-minute access tokens, 7-day
refresh tokens, in seconds. -/
def exJWT : JWTService :=
  { secretKey := "s3cret", accessExpiry := 900, refreshExpiry := 604800 }

/-- Refresh token issued by `exJWT` to user 7 at time 0. -/
def exRefreshTok : SignedToken :=
  (exJWT.generateRefreshToken 7 0 "jti-r0").1

/-- Access token issued by `exJWT` to user 7 at time 0. -/
def exAccessTok : SignedToken :=
  (exJWT.generateAccessToken 7 "alice" "alice@example.com" none 0 "jti-a0").1

/-- Stored salt of the sample user. -/
def exSalt : String := "00ab"

/-- Active sample user (id 7) whose password is `CorrectHorse1!`. -/
def exAlice : User :=
  { base := NewBaseEntity 7 0
    username := "alice"
    email := "alice@example.com"
    firstName := "Alice"
    lastName := "Liddell"
    status := .active
    passwordHash := exDigest (String.append "CorrectHorse1!" exSalt)
    salt := exSalt
    lastLoginAt := none
    loginAttempts := 0
    lockedUntil := none
    roleID := none }

/-- Sample user (id 8) locked until time 100. -/
def exBob : User :=
  { exAlice with
    base := NewBaseEntity 8 0
    username := "bob"
    email := "bob@example.com"
    loginAttempts := 5
    lockedUntil := some 100 }

/-- Stored row (id 21) for `exRefreshTok`, expiring at 604800. -/
def exRow : RefreshToken :=
  NewRefreshToken 21 0 7 exRefreshTok 604800 "127.0.0.1" "test-agent"

/-- Store holding `exAlice` and the row for `exRefreshTok`. -/
def exStore : AuthStore :=
  { users := [exAlice], refreshTokens := [exRow] }

/-- Store holding only the locked user `exBob`. -/
def exStoreLocked : AuthStore :=
  { users := [exBob], refreshTokens := [] }

/-- Revoked sample row. -/
def exRevokedRow : RefreshToken :=
  exRow.Revoke 3 none

/-- Login environment in which every repository call succeeds. -/
def exLoginEnv : LoginEnv :=
  { accessJti := "jti-a1"
    refreshJti := "jti-r1"
    rowID := 22
    updateAfterFailedLoginErr := none
    createRefreshTokenErr := none
    updateAfterLoginErr := none }

/-- Refresh environment in which the revoke-update fails. -/
def exRefreshEnvRevokeFail : RefreshEnv :=
  { accessJti := "jti-a2"
    refreshJti := "jti-r2"
    rowID := 23
    revokeUpdateErr := some "ORA-00060"
    createErr := none }

/-- Refresh environment in which the create of the new row fails. -/
def exRefreshEnvCreateFail : RefreshEnv :=
  { accessJti := "jti-a3"
    refreshJti := "jti-r3"
    rowID := 24
    revokeUpdateErr := none
    createErr := some "ORA-03113" }

/-! Section: Theorems -/

/-- C2: for every user record, `RecordFailedLogin` increases `login_attempts`
by exactly one; whenever the resulting counter reaches 5 (or beyond),
`locked_until` is set to `now + 30` minutes; and for every resulting counter
strictly below 5, `locked_until` is left unchanged. -/
theorem recordFailedLogin_spec (u : User) (now : Int) (updatedBy : Option Nat) :
    (u.RecordFailedLogin now updatedBy).loginAttempts = u.loginAttempts + 1 ∧
    (5 ≤ (u.RecordFailedLogin now updatedBy).loginAttempts →
      (u.RecordFailedLogin now updatedBy).lockedUntil = some (now + 30 * 60)) ∧
    ((u.RecordFailedLogin now updatedBy).loginAttempts < 5 →
      (u.RecordFailedLogin now updatedBy).lockedUntil = u.lockedUntil) := by
  refine ⟨rfl, ?_, ?_⟩ <;> intro h <;>
    simp only [User.RecordFailedLogin] at h ⊢
  · rw [if_pos h]
  · rw [if_neg (by omega)]

/-- C2 witness: a 5th failure at time 10 locks the account until 10 + 30·60. -/
theorem recordFailedLogin_spec_witness :
    ({ exAlice with loginAttempts := 4 }.RecordFailedLogin 10 none).lockedUntil =
      some (10 + 30 * 60) :=
  (recordFailedLogin_spec { exAlice with loginAttempts := 4 } 10 none).2.1 (by decide)

/-- C4 counterexample: a non-revoked stored token whose expiry is exactly the
current instant is still reported valid by `IsValid`, although `now` is not
strictly before `expires_at` — so usability is not equivalent to
`!revoked && now < expires_at`. -/
theorem isValid_at_expiry_counterexample :
    ({ exRow with expiresAt := 100 } : RefreshToken).IsValid 100 = true ∧
    ({ exRow with expiresAt := 100 } : RefreshToken).isRevoked = false ∧
    ¬ ((100 : Int) < ({ exRow with expiresAt := 100 } : RefreshToken).expiresAt) := by
  refine ⟨by decide, by decide, by decide⟩

/-- C4 (amended): for every stored `RefreshToken` record and every current
time `now`, `IsValid` returns true iff the token is not revoked and `now` is
at or before its expiry timestamp; at `now` exactly equal to `expires_at` the
token is still usable. -/
theorem isValid_iff_not_revoked_and_not_past_expiry (rt : RefreshToken) (now : Int) :
    rt.IsValid now = true ↔ (rt.isRevoked = false ∧ now ≤ rt.expiresAt) := by
  simp [RefreshToken.IsValid, RefreshToken.IsExpired, not_lt]

/-- C5: for every password, salt and digest function, verification succeeds
immediately after hashing: `verify(P, hash, salt) = true` where
`(hash, salt) = hashPassword(P)`. -/
theorem verify_after_hash (digest : String → String) (password : String)
    (saltBytes : List Nat) :
    VerifyPassword digest password
      (HashPassword digest password saltBytes).1
      (HashPassword digest password saltBytes).2 = true := by
  simp [VerifyPassword, HashPassword]

/-- Each mutating operation on a `RefreshToken` record keeps the revoked flag
set once it is set. -/
lemma RefreshTokenOp.apply_keeps_revoked (op : RefreshTokenOp) (rt : RefreshToken)
    (h : rt.isRevoked = true) : (op.apply rt).isRevoked = true := by
  cases op <;> simp [RefreshTokenOp.apply, RefreshToken.Revoke, h]

/-- C9: `Revoke` sets the revoked flag and records `revoked_at = now`, and
once the flag is true no sequence of core operations on the record ever
clears it: revocation is one-way. -/
theorem refresh_token_revocation_one_way (rt : RefreshToken) (now : Int)
    (revokedBy : Option Nat) (ops : List RefreshTokenOp)
    (h : rt.isRevoked = true) :
    ((rt.Revoke now revokedBy).isRevoked = true ∧
      (rt.Revoke now revokedBy).revokedAt = some now) ∧
    (applyRefreshTokenOps ops rt).isRevoked = true := by
  refine ⟨⟨rfl, rfl⟩, ?_⟩
  induction ops generalizing rt with
  | nil => exact h
  | cons op rest ih =>
    exact ih (op.apply rt) (op.apply_keeps_revoked rt h)

/-- C9 witness: the revoked sample row stays revoked across a touch, a
version bump, a second revoke and a soft delete. -/
theorem refresh_token_revocation_one_way_witness :
    ((exRevokedRow.Revoke 5 none).isRevoked = true ∧
      (exRevokedRow.Revoke 5 none).revokedAt = some 5) ∧
    (applyRefreshTokenOps
      [RefreshTokenOp.touch 6 none, RefreshTokenOp.updateVersion 7 (some 1),
       RefreshTokenOp.revoke 8 none, RefreshTokenOp.softDelete 9 none]
      exRevokedRow).isRevoked = true :=
  refresh_token_revocation_one_way exRevokedRow 5 none
    [RefreshTokenOp.touch 6 none, RefreshTokenOp.updateVersion 7 (some 1),
     RefreshTokenOp.revoke 8 none, RefreshTokenOp.softDelete 9 none]
    (by decide)

/-- C1: for every token whose validated claims do not carry
`"bm-staff-refresh"` as the first audience entry, the token service's
refresh returns the invalid-token-type error and issues no pair; when the
first audience entry is `"bm-staff-refresh"`, refresh issues a brand-new
pair via `GenerateTokenPair`; and every access token the service issues
carries `"bm-staff-api"` as its audience. -/
theorem jwt_refresh_requires_refresh_audience (js : JWTService) (now : Int)
    (tok : SignedToken) (username email : String) (roleID : Option Nat)
    (accessJti refreshJti : String) (claims : JWTClaims)
    (hval : js.ValidateToken now tok = .ok claims) :
    (claims.audience.head? ≠ some "bm-staff-refresh" →
      js.RefreshToken now tok username email roleID accessJti refreshJti =
        .error "invalid token type for refresh") ∧
    (claims.audience.head? = some "bm-staff-refresh" →
      js.RefreshToken now tok username email roleID accessJti refreshJti =
        .ok (js.GenerateTokenPair claims.userID username email roleID now
          accessJti refreshJti)) ∧
    (∀ uid un em rid aJ rJ,
      (js.GenerateTokenPair uid un em rid now aJ rJ).accessToken.claims.audience =
        ["bm-staff-api"]) := by
  refine ⟨?_, ?_, fun uid un em rid aJ rJ => rfl⟩ <;>
    intro h <;> unfold JWTService.RefreshToken <;> rw [hval] <;> simp [h]

/-- C1 witness: an access token issued by the sample service validates, but
is rejected by refresh with the invalid-token-type error. -/
theorem jwt_refresh_requires_refresh_audience_witness :
    exJWT.RefreshToken 10 exAccessTok "alice" "alice@example.com" none
      "jti-a9" "jti-r9" = .error "invalid token type for refresh" :=
  (jwt_refresh_requires_refresh_audience exJWT 10 exAccessTok "alice"
    "alice@example.com" none "jti-a9" "jti-r9" exAccessTok.claims rfl).1
    (by decide)

/-- C3: for every user whose `locked_until` is set and strictly in the
future, login fails with the account-locked error carrying `locked_until`
in its details, whatever the supplied password, and the store is left
exactly as it was. -/
theorem login_locked_account_rejected (digest : String → String)
    (js : JWTService) (store : AuthStore) (req : LoginRequest)
    (ipAddress userAgent : String) (now : Int) (env : LoginEnv)
    (u : User) (t : Int)
    (hfind : store.getByUsername req.username = some u)
    (hlocked : u.lockedUntil = some t) (hfuture : now < t) :
    LoginUseCase.Execute digest js store req ipAddress userAgent now env =
      (.error (NewValidationError "AUTH_002"
        "Account is locked due to too many failed login attempts"
        (.lockedUntil u.lockedUntil)), store) := by
  have hl : u.IsLocked now = true := by
    simp [User.IsLocked, hlocked, hfuture]
  unfold LoginUseCase.Execute
  rw [hfind]
  simp [hl]

/-- C3 witness: the locked sample user is rejected at time 10 with the
locked-until detail even though the password supplied is the correct one,
and the store is unchanged. -/
theorem login_locked_account_rejected_witness :
    LoginUseCase.Execute exDigest exJWT exStoreLocked
        { username := "bob", password := "CorrectHorse1!" }
        "127.0.0.1" "ua" 10 exLoginEnv =
      (.error (NewValidationError "AUTH_002"
        "Account is locked due to too many failed login attempts"
        (.lockedUntil exBob.lockedUntil)), exStoreLocked) :=
  login_locked_account_rejected exDigest exJWT exStoreLocked
    { username := "bob", password := "CorrectHorse1!" }
    "127.0.0.1" "ua" 10 exLoginEnv exBob 100 (by decide) (by decide) (by decide)

/-- C6: an unknown username and a known username with a failing password
produce the very same error value — same code `AUTH_001`, same message
`Invalid credentials`, no distinguishing details. -/
theorem login_unknown_user_and_wrong_password_indistinguishable
    (digest₁ : String → String) (js₁ : JWTService) (store₁ : AuthStore)
    (req₁ : LoginRequest) (ip₁ ua₁ : String) (now₁ : Int) (env₁ : LoginEnv)
    (digest₂ : String → String) (js₂ : JWTService) (store₂ : AuthStore)
    (req₂ : LoginRequest) (ip₂ ua₂ : String) (now₂ : Int) (env₂ : LoginEnv)
    (u : User)
    (hnotfound : store₁.getByUsername req₁.username = none)
    (hfound : store₂.getByUsername req₂.username = some u)
    (hnotlocked : u.IsLocked now₂ = false)
    (hactive : u.IsActive = true)
    (hbadpw : VerifyPassword digest₂ req₂.password u.passwordHash u.salt = false) :
    (LoginUseCase.Execute digest₁ js₁ store₁ req₁ ip₁ ua₁ now₁ env₁).1 =
      .error (NewValidationError "AUTH_001" "Invalid credentials" .noDetails) ∧
    (LoginUseCase.Execute digest₂ js₂ store₂ req₂ ip₂ ua₂ now₂ env₂).1 =
      .error (NewValidationError "AUTH_001" "Invalid credentials" .noDetails) := by
  constructor
  · unfold LoginUseCase.Execute
    rw [hnotfound]
  · unfold LoginUseCase.Execute
    rw [hfound]
    simp [hnotlocked, hactive, hbadpw]

/-- C6 witness: looking up the absent `carol` and presenting a wrong
password for the present `alice` return the identical error value. -/
theorem login_unknown_user_and_wrong_password_indistinguishable_witness :
    (LoginUseCase.Execute exDigest exJWT exStore
        { username := "carol", password := "whatever1" }
        "127.0.0.1" "ua" 10 exLoginEnv).1 =
      .error (NewValidationError "AUTH_001" "Invalid credentials" .noDetails) ∧
    (LoginUseCase.Execute exDigest exJWT exStore
        { username := "alice", password := "wrong-password" }
        "127.0.0.1" "ua" 10 exLoginEnv).1 =
      .error (NewValidationError "AUTH_001" "Invalid credentials" .noDetails) :=
  login_unknown_user_and_wrong_password_indistinguishable
    exDigest exJWT exStore { username := "carol", password := "whatever1" }
    "127.0.0.1" "ua" 10 exLoginEnv
    exDigest exJWT exStore { username := "alice", password := "wrong-password" }
    "127.0.0.1" "ua" 10 exLoginEnv exAlice
    (by decide) (by decide) (by decide) (by decide) (by decide)

/-- C7: every successful login appends exactly one refresh-token row whose
stored expiry is the fixed `now + 7` days, for every configured refresh
lifetime, while the expiry embedded in the signed refresh token itself is
`now + refreshExpiry`. -/
theorem login_persists_seven_day_refresh_row (digest : String → String)
    (js : JWTService) (store : AuthStore) (req : LoginRequest)
    (ipAddress userAgent : String) (now : Int) (env : LoginEnv) (u : User)
    (hfind : store.getByUsername req.username = some u)
    (hnotlocked : u.IsLocked now = false)
    (hactive : u.IsActive = true)
    (hgoodpw : VerifyPassword digest req.password u.passwordHash u.salt = true)
    (hcreate : env.createRefreshTokenErr = none) :
    (LoginUseCase.Execute digest js store req ipAddress userAgent now env).2.refreshTokens =
      store.refreshTokens ++
        [NewRefreshToken env.rowID now u.base.id
          (js.GenerateTokenPair u.base.id u.username u.email u.roleID now
            env.accessJti env.refreshJti).refreshToken
          (now + 7 * 24 * 60 * 60) ipAddress userAgent] ∧
    (NewRefreshToken env.rowID now u.base.id
      (js.GenerateTokenPair u.base.id u.username u.email u.roleID now
        env.accessJti env.refreshJti).refreshToken
      (now + 7 * 24 * 60 * 60) ipAddress userAgent).expiresAt =
        now + 7 * 24 * 60 * 60 ∧
    (js.GenerateTokenPair u.base.id u.username u.email u.roleID now
      env.accessJti env.refreshJti).refreshToken.claims.expiresAt =
        now + js.refreshExpiry := by
  refine ⟨?_, rfl, rfl⟩
  unfold LoginUseCase.Execute
  rw [hfind]
  cases h2 : env.updateAfterLoginErr <;>
    simp [hnotlocked, hactive, hgoodpw, hcreate, h2,
      AuthStore.createRefreshToken, AuthStore.updateUser]

/-- C7 witness: logging in `alice` with the correct password against the
7-day-refresh-configured sample service stores a row expiring at
`10 + 604800`, matching the embedded expiry only because the sample
configuration happens to be 7 days. -/
theorem login_persists_seven_day_refresh_row_witness :
    (LoginUseCase.Execute exDigest exJWT exStore
        { username := "alice", password := "CorrectHorse1!" }
        "127.0.0.1" "ua" 10 exLoginEnv).2.refreshTokens =
      exStore.refreshTokens ++
        [NewRefreshToken exLoginEnv.rowID 10 exAlice.base.id
          (exJWT.GenerateTokenPair exAlice.base.id exAlice.username exAlice.email
            exAlice.roleID 10 exLoginEnv.accessJti exLoginEnv.refreshJti).refreshToken
          (10 + 7 * 24 * 60 * 60) "127.0.0.1" "ua"] :=
  (login_persists_seven_day_refresh_row exDigest exJWT exStore
    { username := "alice", password := "CorrectHorse1!" }
    "127.0.0.1" "ua" 10 exLoginEnv exAlice
    (by decide) (by decide) (by decide) (by decide) (by decide)).1

/-- C8: when revoking the old stored row fails at persistence, the refresh
flow still returns the new token pair; by contrast, a persistence failure of
the revoke in the logout flow is surfaced as a fatal `SYS_001` error and
leaves the store untouched. -/
theorem refresh_revoke_failure_swallowed_logout_revoke_fatal
    (js : JWTService) (store : AuthStore) (tok : SignedToken)
    (ipAddress userAgent : String) (now : Int) (env : RefreshEnv)
    (claims : JWTClaims) (rt : RefreshToken) (u : User) (msg : String)
    (hval : js.ValidateToken now tok = .ok claims)
    (hrow : store.getByToken tok = some rt)
    (hvalid : rt.IsValid now = true)
    (huser : store.getByID claims.userID = some u)
    (hactive : u.IsActive = true)
    (haud : claims.audience.head? = some "bm-staff-refresh")
    (hrevokefail : env.revokeUpdateErr = some msg)
    (js₂ : JWTService) (store₂ : AuthStore) (tok₂ : SignedToken) (now₂ : Int)
    (claims₂ : JWTClaims) (rt₂ : RefreshToken) (msg₂ : String)
    (hval₂ : js₂.ValidateToken now₂ tok₂ = .ok claims₂)
    (hrow₂ : store₂.getByToken tok₂ = some rt₂)
    (hvalid₂ : rt₂.IsValid now₂ = true) :
    (RefreshTokenUseCase.Execute js store tok ipAddress userAgent now env).1 =
      .ok { tokens := js.GenerateTokenPair claims.userID u.username u.email
              u.roleID now env.accessJti env.refreshJti,
            expiresIn := js.accessExpiry } ∧
    LogoutUseCase.Execute js₂ store₂ tok₂ now₂ (some msg₂) =
      (.error (WrapError msg₂ "SYS_001" "Failed to revoke refresh token"),
        store₂) := by
  constructor
  · unfold RefreshTokenUseCase.Execute JWTService.RefreshToken
    rw [hval, hrow]
    simp only [hvalid, huser, hactive, haud, hrevokefail]
    cases hc : env.createErr <;>
      simp [JWTService.GenerateTokenPair, hc]
  · unfold LogoutUseCase.Execute
    rw [hval₂, hrow₂]
    simp [hvalid₂]

/-- C8 witness: against the sample store, refresh at time 10 with a failing
revoke-update still succeeds with the new pair, while logout with a failing
revoke-update surfaces the `SYS_001` error. -/
theorem refresh_revoke_failure_swallowed_logout_revoke_fatal_witness :
    (RefreshTokenUseCase.Execute exJWT exStore exRefreshTok
      "127.0.0.1" "ua" 10 exRefreshEnvRevokeFail).1 =
      .ok { tokens := exJWT.GenerateTokenPair exRefreshTok.claims.userID
              exAlice.username exAlice.email exAlice.roleID 10
              exRefreshEnvRevokeFail.accessJti exRefreshEnvRevokeFail.refreshJti,
            expiresIn := exJWT.accessExpiry } ∧
    LogoutUseCase.Execute exJWT exStore exRefreshTok 10 (some "db-error") =
      (.error (WrapError "db-error" "SYS_001" "Failed to revoke refresh token"),
        exStore) :=
  refresh_revoke_failure_swallowed_logout_revoke_fatal
    exJWT exStore exRefreshTok "127.0.0.1" "ua" 10 exRefreshEnvRevokeFail
    exRefreshTok.claims exRow exAlice "ORA-00060"
    rfl (by decide) (by decide) (by decide) (by decide) (by decide) rfl
    exJWT exStore exRefreshTok 10 exRefreshTok.claims exRow "db-error"
    rfl (by decide) (by decide)

/-- Looking up a token no row of the store holds yields none. -/
lemma getByToken_eq_none_of_fresh (s : AuthStore) (t : SignedToken)
    (h : ∀ r ∈ s.refreshTokens, r.token ≠ t) : s.getByToken t = none := by
  rw [AuthStore.getByToken, List.find?_eq_none]
  intro r hr
  simpa using h r hr

/-- Replacing a row never makes the store hold a token no row held. -/
lemma getByToken_updateRefreshToken_eq_none (s : AuthStore) (rt : RefreshToken)
    (t : SignedToken) (h : ∀ r ∈ s.refreshTokens, r.token ≠ t)
    (hrt : rt.token ≠ t) : (s.updateRefreshToken rt).getByToken t = none := by
  rw [AuthStore.getByToken, List.find?_eq_none]
  intro x hx
  simp only [AuthStore.updateRefreshToken, List.mem_map] at hx
  obtain ⟨r, hr, rfl⟩ := hx
  by_cases hid : (r.base.id == rt.base.id) = true
  · simp [hid, hrt]
  · simp only [hid, if_neg, Bool.false_eq_true, ite_false]
    simpa using h r hr

/-- Refresh presented with a token the store does not hold fails with the
invalid-refresh-token error, whatever the token service answers. -/
lemma refresh_unknown_token_fails (js : JWTService) (s : AuthStore)
    (t : SignedToken) (ip ua : String) (now : Int) (env : RefreshEnv)
    (h : s.getByToken t = none) :
    (RefreshTokenUseCase.Execute js s t ip ua now env).1 =
      .error (NewValidationError "AUTH_001" "Invalid refresh token" .noDetails) := by
  unfold RefreshTokenUseCase.Execute
  cases hv : js.ValidateToken now t <;> simp [hv, h]

/-- Logout presented with a token the store does not hold fails with the
invalid-refresh-token error, whatever the token service answers. -/
lemma logout_unknown_token_fails (js : JWTService) (s : AuthStore)
    (t : SignedToken) (now : Int) (updateErr : Option String)
    (h : s.getByToken t = none) :
    (LogoutUseCase.Execute js s t now updateErr).1 =
      .error (NewValidationError "AUTH_001" "Invalid refresh token" .noDetails) := by
  unfold LogoutUseCase.Execute
  cases hv : js.ValidateToken now t <;> simp [hv, h]

/-- C10: when persisting the newly created row fails, the refresh flow still
returns the new pair; the returned refresh token is then held by no row of
the resulting store, and every later refresh or logout presenting it fails
with the invalid-refresh-token error. -/
theorem refresh_create_failure_swallowed (js : JWTService) (store : AuthStore)
    (tok : SignedToken) (ipAddress userAgent : String) (now : Int)
    (env : RefreshEnv) (claims : JWTClaims) (rt : RefreshToken) (u : User)
    (msg : String)
    (hval : js.ValidateToken now tok = .ok claims)
    (hrow : store.getByToken tok = some rt)
    (hvalid : rt.IsValid now = true)
    (huser : store.getByID claims.userID = some u)
    (hactive : u.IsActive = true)
    (haud : claims.audience.head? = some "bm-staff-refresh")
    (hcreatefail : env.createErr = some msg)
    (hfresh : ∀ r ∈ store.refreshTokens,
      r.token ≠ (js.generateRefreshToken claims.userID now env.refreshJti).1) :
    (RefreshTokenUseCase.Execute js store tok ipAddress userAgent now env).1 =
      .ok { tokens := js.GenerateTokenPair claims.userID u.username u.email
              u.roleID now env.accessJti env.refreshJti,
            expiresIn := js.accessExpiry } ∧
    (RefreshTokenUseCase.Execute js store tok ipAddress userAgent now env).2.getByToken
      ((js.generateRefreshToken claims.userID now env.refreshJti).1) = none ∧
    (∀ now₂ ip₂ ua₂ env₂,
      (RefreshTokenUseCase.Execute js
          (RefreshTokenUseCase.Execute js store tok ipAddress userAgent now env).2
          ((js.generateRefreshToken claims.userID now env.refreshJti).1)
          ip₂ ua₂ now₂ env₂).1 =
        .error (NewValidationError "AUTH_001" "Invalid refresh token" .noDetails)) ∧
    (∀ now₂ upd,
      (LogoutUseCase.Execute js
          (RefreshTokenUseCase.Execute js store tok ipAddress userAgent now env).2
          ((js.generateRefreshToken claims.userID now env.refreshJti).1)
          now₂ upd).1 =
        .error (NewValidationError "AUTH_001" "Invalid refresh token" .noDetails)) := by
  have hmem : rt ∈ store.refreshTokens :=
    List.mem_of_find?_eq_some hrow
  have hexec : RefreshTokenUseCase.Execute js store tok ipAddress userAgent now env =
      (.ok { tokens := js.GenerateTokenPair claims.userID u.username u.email
               u.roleID now env.accessJti env.refreshJti,
             expiresIn := js.accessExpiry },
        match env.revokeUpdateErr with
        | some _ => store
        | none => store.updateRefreshToken (rt.Revoke now none)) := by
    unfold RefreshTokenUseCase.Execute JWTService.RefreshToken
    rw [hval, hrow]
    simp only [hvalid, huser, hactive, haud, hcreatefail]
    cases hr : env.revokeUpdateErr <;>
      simp [JWTService.GenerateTokenPair, hr]
  have hsnd : (RefreshTokenUseCase.Execute js store tok ipAddress userAgent now env).2.getByToken
      ((js.generateRefreshToken claims.userID now env.refreshJti).1) = none := by
    rw [hexec]
    cases hr : env.revokeUpdateErr with
    | some e =>
      exact getByToken_eq_none_of_fresh store _ hfresh
    | none =>
      refine getByToken_updateRefreshToken_eq_none store _ _ hfresh ?_
      exact hfresh rt hmem
  refine ⟨by rw [hexec], hsnd, ?_, ?_⟩
  · intro now₂ ip₂ ua₂ env₂
    exact refresh_unknown_token_fails js _ _ ip₂ ua₂ now₂ env₂ hsnd
  · intro now₂ upd
    exact logout_unknown_token_fails js _ _ now₂ upd hsnd

/-- C10 witness: refresh at time 10 against the sample store with a failing
create still succeeds; the returned refresh token is absent from the store
and a later refresh at 20 and logout at 20 with it both fail. -/
theorem refresh_create_failure_swallowed_witness :
    (RefreshTokenUseCase.Execute exJWT exStore exRefreshTok
      "127.0.0.1" "ua" 10 exRefreshEnvCreateFail).1 =
      .ok { tokens := exJWT.GenerateTokenPair exRefreshTok.claims.userID
              exAlice.username exAlice.email exAlice.roleID 10
              exRefreshEnvCreateFail.accessJti exRefreshEnvCreateFail.refreshJti,
            expiresIn := exJWT.accessExpiry } ∧
    (RefreshTokenUseCase.Execute exJWT
        (RefreshTokenUseCase.Execute exJWT exStore exRefreshTok
          "127.0.0.1" "ua" 10 exRefreshEnvCreateFail).2
        ((exJWT.generateRefreshToken exRefreshTok.claims.userID 10
          exRefreshEnvCreateFail.refreshJti).1)
        "10.0.0.1" "ua2" 20 exRefreshEnvRevokeFail).1 =
      .error (NewValidationError "AUTH_001" "Invalid refresh token" .noDetails) ∧
    (LogoutUseCase.Execute exJWT
        (RefreshTokenUseCase.Execute exJWT exStore exRefreshTok
          "127.0.0.1" "ua" 10 exRefreshEnvCreateFail).2
        ((exJWT.generateRefreshToken exRefreshTok.claims.userID 10
          exRefreshEnvCreateFail.refreshJti).1)
        20 none).1 =
      .error (NewValidationError "AUTH_001" "Invalid refresh token" .noDetails) :=
  ⟨(refresh_create_failure_swallowed exJWT exStore exRefreshTok "127.0.0.1" "ua"
      10 exRefreshEnvCreateFail exRefreshTok.claims exRow exAlice "ORA-03113"
      rfl (by decide) (by decide) (by decide) (by decide) (by decide) rfl
      (by decide)).1,
   (refresh_create_failure_swallowed exJWT exStore exRefreshTok "127.0.0.1" "ua"
      10 exRefreshEnvCreateFail exRefreshTok.claims exRow exAlice "ORA-03113"
      rfl (by decide) (by decide) (by decide) (by decide) (by decide) rfl
      (by decide)).2.2.1 20 "10.0.0.1" "ua2" exRefreshEnvRevokeFail,
   (refresh_create_failure_swallowed exJWT exStore exRefreshTok "127.0.0.1" "ua"
      10 exRefreshEnvCreateFail exRefreshTok.claims exRow exAlice "ORA-03113"
      rfl (by decide) (by decide) (by decide) (by decide) (by decide) rfl
      (by decide)).2.2.2 20 none⟩

end BmStaff
